import Mathlib

/-!
Shallow embedding of `src/server/app/controllers/game-play-controller/game-play.controller.ts`
(class `GamePlayController`) from the repository ThomasTrepanier/Scrabble-Projet2.

The controller orchestrates one turn action: it validates the incoming action,
echoes the raw input as a chat message, delegates to the game engine
(`GamePlayService.playAction`), broadcasts updates, routes feedback, and runs a
recovery protocol when a human player submits a word that is not in the
dictionary.  External collaborators (`GamePlayService`, `SocketService`,
`ActiveGameService`, `VirtualPlayerService`, `isIdVirtualPlayer`) are modelled
as an environment of pure functions, and every outbound effect is recorded as
an event in a trace, in the order the source emits it.
-/

namespace GamePlay

/-- Modelled from the spec: the neutral "system" sender identity
(`SYSTEM_ID` in `constants/game-constants`, not under `src/`). -/
def SYSTEM_ID : String := "system"

/-- Modelled from the spec: the distinct "system-error" sender identity
(`SYSTEM_ERROR_ID` in `constants/game-constants`, not under `src/`). -/
def SYSTEM_ERROR_ID : String := "system-error"

/-- Modelled from the spec: the fixed recovery delay in milliseconds
(`INVALID_WORD_TIMEOUT` in `constants/game-constants`, not under `src/`);
its concrete value is irrelevant to the claims. -/
def INVALID_WORD_TIMEOUT : Nat := 3000

/-- Modelled from the spec: the fixed text sent to the opponent when the
acting player played an invalid word (`OPPONENT_PLAYED_INVALID_WORD` in
`constants/services-errors`, not under `src/`). -/
def OPPONENT_PLAYED_INVALID_WORD : String := "Your opponent played an invalid word"

/-- Modelled from the spec: the fixed prefix naming the offending raw input
(`COMMAND_IS_INVALID` in `constants/services-errors`, not under `src/`). -/
def COMMAND_IS_INVALID (input : String) : String :=
  "The command " ++ input ++ " is invalid: "

/-- Modelled from the spec: the action kinds of `ActionType`
(`classes/communication/action-data`, not under `src/`); the controller
only ever names `PASS` itself. -/
inductive ActionType
  | PLAY
  | PASS
  | EXCHANGE
  | other (kind : String)
  deriving DecidableEq, Repr

/-- Modelled from the spec: an action payload; the controller never inspects
its contents, only its presence.  `empty` stands for the object literal with
no fields used for the synthetic PASS. -/
inductive ActionPayload
  | empty
  | obj (data : String)
  deriving DecidableEq, Repr

/-- `ActionData` as the controller receives it: each field may be absent
(`undefined` in the source language). -/
structure ActionData where
  type : Option ActionType
  payload : Option ActionPayload
  input : Option String
  deriving DecidableEq, Repr

/-- A chat message as emitted through the socket service
(`newMessage` events). -/
structure ChatMessage where
  content : String
  senderId : String
  gameId : String
  isClickable : Option Bool := none
  deriving DecidableEq, Repr

/-- Modelled from the spec: one feedback item
(`FeedbackMessage = message? : text, isClickable? : bool`). -/
structure FeedbackMessage where
  message : Option String
  isClickable : Option Bool := none
  deriving DecidableEq, Repr

/-- Modelled from the spec: the feedback bundle returned by the engine
(`FeedbackMessages` in `classes/communication/feedback-messages`). -/
structure FeedbackMessages where
  localPlayerFeedback : FeedbackMessage
  opponentFeedback : FeedbackMessage
  endGameFeedback : List FeedbackMessage
  deriving DecidableEq, Repr

/-- Modelled from the spec: the player named by a round. -/
structure PlayerData where
  id : String
  deriving DecidableEq, Repr

/-- Modelled from the spec: the round information carried by an update. -/
structure RoundData where
  playerData : PlayerData
  deriving DecidableEq, Repr

/-- Modelled from the spec: a game update (`GameUpdateData`); `round` may be
absent, and all other state-for-broadcast fields are abstracted as opaque
text. -/
structure GameUpdateData where
  round : Option RoundData
  state : String := ""
  deriving DecidableEq, Repr

/-- A thrown error value: a message plus an optional HTTP status
classification (`HttpException.status`; plain runtime errors carry none). -/
structure Err where
  message : String
  status : Option Nat := none
  deriving DecidableEq, Repr

/-- The runtime error raised by reading `.length` of an absent `input`
field at line 78 of the controller. -/
def typeErr : Err :=
  { message := "Cannot read property length of undefined", status := none }

/-- The runtime error standing for call-stack exhaustion, returned when the
recursion fuel runs out. -/
def stackOverflowErr : Err :=
  { message := "Maximum call stack size exceeded", status := none }

/-- String containment, mirroring `String.prototype.includes`. -/
def strIncludes (s sub : String) : Bool :=
  decide (sub.toList <:+: s.toList)

/-- Line 185: the failure is a word rejection when its message contains the
fixed French text naming the dictionary (written below with \x27 escapes). -/
def isWordNotInDictionaryError (e : Err) : Bool :=
  strIncludes e.message " n\x27est pas dans le dictionnaire choisi."

/-- Coercion of a possibly-absent string into text, as string interpolation
of the source language renders an absent value. -/
def jsString : Option String → String
  | some s => s
  | none => "undefined"

/-- One observable outbound effect of the controller, in emission order. -/
inductive Event
  | emitToSocket (socketId : String) (message : ChatMessage)
  | emitToRoom (room : String) (message : ChatMessage)
  | emitGameUpdate (room : String) (data : GameUpdateData)
  | triggerVirtualTurn (data : GameUpdateData) (gameId : String) (virtualId : String)
  | delayFor (ms : Nat)
  | engineCall (gameId : String) (playerId : String) (data : ActionData)
  deriving DecidableEq, Repr

/-- The external collaborators of the controller, as pure functions. -/
structure Env where
  playAction : String → String → ActionData →
    Except Err (Option GameUpdateData × Option FeedbackMessages)
  isGameOverRaw : String → String → Bool
  sessionValid : String → Bool
  handleResetObjectives : String → String → GameUpdateData
  getOpponentId : String → String → String
  isIdVirtualPlayer : String → Bool

/-- Modelled from the spec: `GamePlayService.isGameOver` (not under `src/`).
Per the spec, if the session has become invalid while a recovery delay was
pending, the game-over check reports true (stop) rather than raising a new
failure; otherwise it reports the underlying game-over state. -/
def Env.isGameOver (env : Env) (gameId playerId : String) : Bool :=
  !env.sessionValid gameId || env.isGameOverRaw gameId playerId

/-- Lines 110-115: `gameUpdate` broadcasts the update to the room and, when
the round names a virtual player, triggers the turn of that virtual player. -/
def gameUpdate (env : Env) (gameId : String) (data : GameUpdateData) : List Event :=
  Event.emitGameUpdate gameId data ::
    (match data.round with
     | some round =>
       if env.isIdVirtualPlayer round.playerData.id then
         [Event.triggerVirtualTurn data gameId round.playerData.id]
       else []
     | none => [])

/-- Lines 117-142: `handleFeedback` routes the three feedback components.
The presence tests are truthiness tests of the source language: an absent
message and an empty message both skip the send. -/
def handleFeedback (env : Env) (gameId playerId : String) (feedback : FeedbackMessages) :
    List Event :=
  (match feedback.localPlayerFeedback.message with
   | some m =>
     if 0 < m.length then
       [Event.emitToSocket playerId
         { content := m, senderId := SYSTEM_ID, gameId := gameId,
           isClickable := feedback.localPlayerFeedback.isClickable }]
     else []
   | none => []) ++
  (match feedback.opponentFeedback.message with
   | some m =>
     if 0 < m.length then
       [Event.emitToSocket (env.getOpponentId gameId playerId)
         { content := m, senderId := SYSTEM_ID, gameId := gameId,
           isClickable := feedback.opponentFeedback.isClickable }]
     else []
   | none => []) ++
  (if 0 < feedback.endGameFeedback.length then
     [Event.emitToRoom gameId
       { content :=
           String.intercalate "<br>"
             (feedback.endGameFeedback.map (fun f => f.message.getD "")),
         senderId := SYSTEM_ID, gameId := gameId }]
   else [])

/-- Lines 162-183: `handleError`.  On a word-not-in-dictionary failure it
waits the fixed delay, stops silently when the game is over (the early
return also skips the final generic notification), otherwise broadcasts the
objectives reset and notifies the opponent; every failure that reaches the
end of the method sends the generic system-error notification to the acting
player. -/
def handleError (env : Env) (e : Err) (input : Option String) (playerId gameId : String) :
    List Event :=
  let generic : List Event :=
    [Event.emitToSocket playerId
      { content := COMMAND_IS_INVALID (jsString input) ++ e.message,
        senderId := SYSTEM_ERROR_ID, gameId := gameId }]
  if isWordNotInDictionaryError e then
    if env.isGameOver gameId playerId then
      [Event.delayFor INVALID_WORD_TIMEOUT]
    else
      Event.delayFor INVALID_WORD_TIMEOUT ::
        (gameUpdate env gameId (env.handleResetObjectives gameId playerId) ++
         [Event.emitToSocket (env.getOpponentId gameId playerId)
           { content := OPPONENT_PLAYED_INVALID_WORD, senderId := SYSTEM_ID,
             gameId := gameId }] ++
         generic)
  else generic

/-- The synthetic action resubmitted at line 105:
`\x7b type: ActionType.PASS, payload: \x7b}, input: \x27\x27 }`. -/
def passActionData : ActionData :=
  { type := some ActionType.PASS, payload := some ActionPayload.empty, input := some "" }

/-- Lines 77-93: the body of the `try` block of `handlePlayAction`.  Reading
`data.input.length` of an absent `input` raises a runtime error before the
engine is reached; otherwise the non-empty raw input is echoed, the engine is
invoked, and a present update and present feedback are routed in order. -/
def attemptPlay (env : Env) (gameId playerId : String) (data : ActionData) :
    List Event × Except Err Unit :=
  match data.input with
  | none => ([], Except.error typeErr)
  | some input =>
    let echo : List Event :=
      if 0 < input.length then
        [Event.emitToSocket playerId
          { content := input, senderId := playerId, gameId := gameId }]
      else []
    match env.playAction gameId playerId data with
    | Except.error e => (echo ++ [Event.engineCall gameId playerId data], Except.error e)
    | Except.ok (updateData, feedback) =>
      let updEvents : List Event :=
        match updateData with
        | some u => gameUpdate env gameId u
        | none => []
      let fbEvents : List Event :=
        match feedback with
        | some f => handleFeedback env gameId playerId f
        | none => []
      (echo ++ [Event.engineCall gameId playerId data] ++ updEvents ++ fbEvents,
       Except.ok ())

/-- Lines 73-108: `handlePlayAction`.  Structural validation first; then the
`try` body; on failure, the failure of a virtual player is re-thrown with the same
message and status, while a human failure is absorbed by `handleError`, with
the word-not-in-dictionary case resubmitting a synthetic PASS unless the game
is over.  The self-resubmission is bounded by an explicit fuel standing for
the call stack. -/
def handlePlayAction (env : Env) :
    Nat → String → String → ActionData → List Event × Except Err Unit
  | 0, _, _, _ => ([], Except.error stackOverflowErr)
  | fuel + 1, gameId, playerId, data =>
    if data.type = none then
      ([], Except.error { message := "type is required", status := some 400 })
    else if data.payload = none then
      ([], Except.error { message := "payload is required", status := some 400 })
    else
      match attemptPlay env gameId playerId data with
      | (evs, Except.ok _) => (evs, Except.ok ())
      | (evs, Except.error e) =>
        if env.isIdVirtualPlayer playerId then
          (evs, Except.error { message := e.message, status := e.status })
        else
          let errEvents := handleError env e data.input playerId gameId
          if isWordNotInDictionaryError e then
            if env.isGameOver gameId playerId then
              (evs ++ errEvents, Except.ok ())
            else
              let retry := handlePlayAction env fuel gameId playerId passActionData
              (evs ++ errEvents ++ retry.1, retry.2)
          else
            (evs ++ errEvents, Except.ok ())

/-- The delay events of a trace mark recovery rounds: `delayFor` is emitted
nowhere but at the start of the invalid-word recovery. -/
def isDelayEvent : Event → Bool
  | Event.delayFor _ => true
  | _ => false

/-- An engine invocation event. -/
def isEngineCallEvent : Event → Bool
  | Event.engineCall _ _ _ => true
  | _ => false

/-- An objectives-reset (or any) update broadcast event. -/
def isGameUpdateEvent : Event → Bool
  | Event.emitGameUpdate _ _ => true
  | _ => false

/-- The sender identity of a chat event, when the event is one. -/
def eventSender : Event → Option String
  | Event.emitToSocket _ m => some m.senderId
  | Event.emitToRoom _ m => some m.senderId
  | _ => none

/-- A resubmission of the synthetic PASS action through the dispatcher. -/
def isPassResubmission (gameId playerId : String) : Event → Bool :=
  fun ev => decide (ev = Event.engineCall gameId playerId passActionData)

/-- A chat event whose sender is the given identity. -/
def senderIs (who : String) : Event → Bool :=
  fun ev => decide (eventSender ev = some who)

/-- A chat message sent to a single recipient (as opposed to a broadcast). -/
def isDirectMessage : Event → Bool
  | Event.emitToSocket _ _ => true
  | _ => false

/-- The generic system-error notification `handleError` sends to the acting
player (lines 178-182). -/
def genericErrorMessage (e : Err) (input : Option String) (playerId gameId : String) :
    Event :=
  Event.emitToSocket playerId
    { content := COMMAND_IS_INVALID (jsString input) ++ e.message,
      senderId := SYSTEM_ERROR_ID, gameId := gameId }

/-- The fixed-text notification `handleError` sends to the opponent
(lines 170-175). -/
def opponentInvalidWordMessage (env : Env) (playerId gameId : String) : Event :=
  Event.emitToSocket (env.getOpponentId gameId playerId)
    { content := OPPONENT_PLAYED_INVALID_WORD, senderId := SYSTEM_ID, gameId := gameId }

/-- The chat echo of the raw input (lines 78-84): emitted only when the raw
input is non-empty, attributed to the submitting player. -/
def echoEvents (gameId playerId : String) (input : String) : List Event :=
  if 0 < input.length then
    [Event.emitToSocket playerId
      { content := input, senderId := playerId, gameId := gameId }]
  else []

/-- A concrete dictionary-rejection failure, for the concrete instances. -/
def wordErr : Err :=
  { message := "abc n\x27est pas dans le dictionnaire choisi.", status := some 403 }

/-- A concrete generic engine failure, for the concrete instances. -/
def genErr : Err := { message := "not your turn", status := some 409 }

/-- A concrete environment: every player is human, the session is valid, the
game is not over, the engine rejects every non-PASS action for an
unrecognized word and accepts a PASS with no update and no feedback. -/
def envA : Env :=
  { playAction := fun _ _ d =>
      if d.type = some ActionType.PASS then Except.ok (none, none)
      else Except.error wordErr,
    isGameOverRaw := fun _ _ => false,
    sessionValid := fun _ => true,
    handleResetObjectives := fun _ _ => { round := none, state := "reset" },
    getOpponentId := fun _ _ => "opp",
    isIdVirtualPlayer := fun _ => false }

/-- `envA` with the game already over at the post-delay check. -/
def envOver : Env := { envA with isGameOverRaw := fun _ _ => true }

/-- `envA` with the session invalid (deleted). -/
def envDeleted : Env := { envA with sessionValid := fun _ => false }

/-- A concrete environment in which every player classifies as automated and
every action fails with a generic engine failure. -/
def envVirt : Env :=
  { envA with
    playAction := fun _ _ _ => Except.error genErr,
    isIdVirtualPlayer := fun _ => true }

/-- A concrete well-formed action whose raw input is `abc`. -/
def dataA : ActionData :=
  { type := some ActionType.PLAY, payload := some ActionPayload.empty,
    input := some "abc" }

/-- A concrete well-formed action whose raw input is empty. -/
def dataB : ActionData :=
  { type := some ActionType.PLAY, payload := some ActionPayload.empty,
    input := some "" }

theorem handleError_not_word (env : Env) (e : Err) (input : Option String)
    (playerId gameId : String) (h : isWordNotInDictionaryError e = false) :
    handleError env e input playerId gameId =
      [genericErrorMessage e input playerId gameId] := by
  simp [handleError, genericErrorMessage, h]

theorem handleError_word_over (env : Env) (e : Err) (input : Option String)
    (playerId gameId : String) (h : isWordNotInDictionaryError e = true)
    (hover : env.isGameOver gameId playerId = true) :
    handleError env e input playerId gameId = [Event.delayFor INVALID_WORD_TIMEOUT] := by
  simp [handleError, h, hover]

theorem handleError_word_live (env : Env) (e : Err) (input : Option String)
    (playerId gameId : String) (h : isWordNotInDictionaryError e = true)
    (hover : env.isGameOver gameId playerId = false) :
    handleError env e input playerId gameId =
      Event.delayFor INVALID_WORD_TIMEOUT ::
        (gameUpdate env gameId (env.handleResetObjectives gameId playerId) ++
         [opponentInvalidWordMessage env playerId gameId] ++
         [genericErrorMessage e input playerId gameId]) := by
  simp [handleError, genericErrorMessage, opponentInvalidWordMessage, h, hover]

theorem mem_gameUpdate (env : Env) (gameId : String) (d : GameUpdateData) (ev : Event)
    (h : ev ∈ gameUpdate env gameId d) :
    isDelayEvent ev = false ∧ isEngineCallEvent ev = false ∧ eventSender ev = none := by
  unfold gameUpdate at h
  rcases List.mem_cons.mp h with h | h
  · subst h; exact ⟨rfl, rfl, rfl⟩
  · rcases hr : d.round with _ | r <;> rw [hr] at h
    · simp at h
    · by_cases hv : env.isIdVirtualPlayer r.playerData.id <;> simp [hv] at h
      subst h; exact ⟨rfl, rfl, rfl⟩

theorem mem_handleFeedback (env : Env) (gameId playerId : String) (f : FeedbackMessages)
    (ev : Event) (h : ev ∈ handleFeedback env gameId playerId f) :
    eventSender ev = some SYSTEM_ID := by
  unfold handleFeedback at h
  rcases List.mem_append.mp h with h | h
  · rcases List.mem_append.mp h with h | h
    · rcases hm : f.localPlayerFeedback.message with _ | m <;> rw [hm] at h
      · simp at h
      · by_cases hl : 0 < m.length <;> simp [hl] at h
        subst h; rfl
    · rcases hm : f.opponentFeedback.message with _ | m <;> rw [hm] at h
      · simp at h
      · by_cases hl : 0 < m.length <;> simp [hl] at h
        subst h; rfl
  · by_cases hl : 0 < f.endGameFeedback.length <;> simp [hl] at h
    subst h; rfl

theorem sender_shape (ev : Event) (s : String) (h : eventSender ev = some s) :
    isDelayEvent ev = false ∧ isEngineCallEvent ev = false ∧ isGameUpdateEvent ev = false := by
  cases ev <;> simp_all [eventSender, isDelayEvent, isEngineCallEvent, isGameUpdateEvent]

theorem countP_eq_zero_of (l : List Event) (p : Event → Bool)
    (h : ∀ ev ∈ l, p ev = false) : l.countP p = 0 :=
  List.countP_eq_zero.mpr (by simpa using h)

theorem attemptPlay_of_input_none (env : Env) (gameId playerId : String)
    (data : ActionData) (hin : data.input = none) :
    attemptPlay env gameId playerId data = ([], Except.error typeErr) := by
  simp [attemptPlay, hin]

theorem attemptPlay_of_error (env : Env) (gameId playerId : String) (data : ActionData)
    (s : String) (e : Err) (hin : data.input = some s)
    (hpa : env.playAction gameId playerId data = Except.error e) :
    attemptPlay env gameId playerId data =
      (echoEvents gameId playerId s ++ [Event.engineCall gameId playerId data],
       Except.error e) := by
  simp [attemptPlay, echoEvents, hin, hpa]

theorem attemptPlay_of_ok (env : Env) (gameId playerId : String) (data : ActionData)
    (s : String) (u : Option GameUpdateData) (f : Option FeedbackMessages)
    (hin : data.input = some s)
    (hpa : env.playAction gameId playerId data = Except.ok (u, f)) :
    attemptPlay env gameId playerId data =
      (echoEvents gameId playerId s ++ [Event.engineCall gameId playerId data] ++
        u.elim [] (gameUpdate env gameId) ++
        f.elim [] (handleFeedback env gameId playerId),
       Except.ok ()) := by
  cases u <;> cases f <;> simp [attemptPlay, echoEvents, hin, hpa]

theorem handlePlayAction_of_type_none (env : Env) (fuel : Nat)
    (gameId playerId : String) (data : ActionData) (ht : data.type = none) :
    handlePlayAction env (fuel + 1) gameId playerId data =
      ([], Except.error { message := "type is required", status := some 400 }) := by
  simp [handlePlayAction, ht]

theorem handlePlayAction_of_payload_none (env : Env) (fuel : Nat)
    (gameId playerId : String) (data : ActionData) (ht : data.type ≠ none)
    (hp : data.payload = none) :
    handlePlayAction env (fuel + 1) gameId playerId data =
      ([], Except.error { message := "payload is required", status := some 400 }) := by
  simp [handlePlayAction, ht, hp]

theorem handlePlayAction_of_ok (env : Env) (fuel : Nat) (gameId playerId : String)
    (data : ActionData) (evs : List Event) (ht : data.type ≠ none)
    (hp : data.payload ≠ none)
    (hatt : attemptPlay env gameId playerId data = (evs, Except.ok ())) :
    handlePlayAction env (fuel + 1) gameId playerId data = (evs, Except.ok ()) := by
  simp [handlePlayAction, ht, hp, hatt]

theorem handlePlayAction_of_error_virtual (env : Env) (fuel : Nat)
    (gameId playerId : String) (data : ActionData) (evs : List Event) (e : Err)
    (ht : data.type ≠ none) (hp : data.payload ≠ none)
    (hatt : attemptPlay env gameId playerId data = (evs, Except.error e))
    (hvp : env.isIdVirtualPlayer playerId = true) :
    handlePlayAction env (fuel + 1) gameId playerId data =
      (evs, Except.error { message := e.message, status := e.status }) := by
  simp [handlePlayAction, ht, hp, hatt, hvp]

theorem handlePlayAction_of_error_human_not_word (env : Env) (fuel : Nat)
    (gameId playerId : String) (data : ActionData) (evs : List Event) (e : Err)
    (ht : data.type ≠ none) (hp : data.payload ≠ none)
    (hatt : attemptPlay env gameId playerId data = (evs, Except.error e))
    (hvp : env.isIdVirtualPlayer playerId = false)
    (hw : isWordNotInDictionaryError e = false) :
    handlePlayAction env (fuel + 1) gameId playerId data =
      (evs ++ handleError env e data.input playerId gameId, Except.ok ()) := by
  simp [handlePlayAction, ht, hp, hatt, hvp, hw]

theorem handlePlayAction_of_error_human_word_over (env : Env) (fuel : Nat)
    (gameId playerId : String) (data : ActionData) (evs : List Event) (e : Err)
    (ht : data.type ≠ none) (hp : data.payload ≠ none)
    (hatt : attemptPlay env gameId playerId data = (evs, Except.error e))
    (hvp : env.isIdVirtualPlayer playerId = false)
    (hw : isWordNotInDictionaryError e = true)
    (hover : env.isGameOver gameId playerId = true) :
    handlePlayAction env (fuel + 1) gameId playerId data =
      (evs ++ handleError env e data.input playerId gameId, Except.ok ()) := by
  simp [handlePlayAction, ht, hp, hatt, hvp, hw, hover]

theorem handlePlayAction_of_error_human_word_live (env : Env) (fuel : Nat)
    (gameId playerId : String) (data : ActionData) (evs : List Event) (e : Err)
    (ht : data.type ≠ none) (hp : data.payload ≠ none)
    (hatt : attemptPlay env gameId playerId data = (evs, Except.error e))
    (hvp : env.isIdVirtualPlayer playerId = false)
    (hw : isWordNotInDictionaryError e = true)
    (hover : env.isGameOver gameId playerId = false) :
    handlePlayAction env (fuel + 1) gameId playerId data =
      (evs ++ handleError env e data.input playerId gameId ++
        (handlePlayAction env fuel gameId playerId passActionData).1,
       (handlePlayAction env fuel gameId playerId passActionData).2) := by
  simp [handlePlayAction, ht, hp, hatt, hvp, hw, hover]

theorem not_engineCall_shapes (ev : Event) (gameId playerId : String)
    (h : isEngineCallEvent ev = false) :
    isPassResubmission gameId playerId ev = false := by
  cases ev <;> simp_all [isEngineCallEvent, isPassResubmission]

theorem senderIs_of_none (ev : Event) (who : String) (h : eventSender ev = none) :
    senderIs who ev = false := by
  simp [senderIs, h]

theorem gameUpdate_countP_delay (env : Env) (gameId : String) (d : GameUpdateData) :
    (gameUpdate env gameId d).countP isDelayEvent = 0 :=
  countP_eq_zero_of _ _ (fun ev hev => (mem_gameUpdate env gameId d ev hev).1)

theorem gameUpdate_countP_pass (env : Env) (gameId : String) (d : GameUpdateData)
    (g p : String) : (gameUpdate env gameId d).countP (isPassResubmission g p) = 0 :=
  countP_eq_zero_of _ _ (fun ev hev =>
    not_engineCall_shapes ev g p (mem_gameUpdate env gameId d ev hev).2.1)

theorem gameUpdate_countP_sender (env : Env) (gameId : String) (d : GameUpdateData)
    (who : String) : (gameUpdate env gameId d).countP (senderIs who) = 0 :=
  countP_eq_zero_of _ _ (fun ev hev =>
    senderIs_of_none ev who (mem_gameUpdate env gameId d ev hev).2.2)

theorem handleFeedback_countP_delay (env : Env) (gameId playerId : String)
    (f : FeedbackMessages) : (handleFeedback env gameId playerId f).countP isDelayEvent = 0 :=
  countP_eq_zero_of _ _ (fun ev hev =>
    (sender_shape ev SYSTEM_ID (mem_handleFeedback env gameId playerId f ev hev)).1)

theorem handleFeedback_countP_pass (env : Env) (gameId playerId : String)
    (f : FeedbackMessages) (g p : String) :
    (handleFeedback env gameId playerId f).countP (isPassResubmission g p) = 0 :=
  countP_eq_zero_of _ _ (fun ev hev =>
    not_engineCall_shapes ev g p
      (sender_shape ev SYSTEM_ID (mem_handleFeedback env gameId playerId f ev hev)).2.1)

theorem handleFeedback_countP_sender (env : Env) (gameId playerId : String)
    (f : FeedbackMessages) (who : String) (h : who ≠ SYSTEM_ID) :
    (handleFeedback env gameId playerId f).countP (senderIs who) = 0 :=
  countP_eq_zero_of _ _ (fun ev hev => by
    have := mem_handleFeedback env gameId playerId f ev hev
    simp [senderIs, this]
    exact fun hc => h hc.symm)

theorem mem_handleError (env : Env) (e : Err) (input : Option String)
    (playerId gameId : String) (ev : Event)
    (h : ev ∈ handleError env e input playerId gameId) :
    isEngineCallEvent ev = false ∧
      (eventSender ev = none ∨ eventSender ev = some SYSTEM_ID ∨
        eventSender ev = some SYSTEM_ERROR_ID) := by
  by_cases hw : isWordNotInDictionaryError e = true
  · by_cases hover : env.isGameOver gameId playerId = true
    · rw [handleError_word_over env e input playerId gameId hw hover] at h
      simp at h; subst h
      exact ⟨rfl, Or.inl rfl⟩
    · rw [handleError_word_live env e input playerId gameId hw
        (by simpa using hover)] at h
      rcases List.mem_cons.mp h with h | h
      · subst h; exact ⟨rfl, Or.inl rfl⟩
      · rcases List.mem_append.mp h with h | h
        · rcases List.mem_append.mp h with h | h
          · have := mem_gameUpdate env gameId _ ev h
            exact ⟨this.2.1, Or.inl this.2.2⟩
          · simp [opponentInvalidWordMessage] at h; subst h
            exact ⟨rfl, Or.inr (Or.inl rfl)⟩
        · simp [genericErrorMessage] at h; subst h
          exact ⟨rfl, Or.inr (Or.inr rfl)⟩
  · rw [handleError_not_word env e input playerId gameId (by simpa using hw)] at h
    simp [genericErrorMessage] at h; subst h
    exact ⟨rfl, Or.inr (Or.inr rfl)⟩

theorem handleError_countP_pass (env : Env) (e : Err) (input : Option String)
    (playerId gameId : String) (g p : String) :
    (handleError env e input playerId gameId).countP (isPassResubmission g p) = 0 :=
  countP_eq_zero_of _ _ (fun ev hev =>
    not_engineCall_shapes ev g p
      (mem_handleError env e input playerId gameId ev hev).1)

theorem handleError_countP_sender (env : Env) (e : Err) (input : Option String)
    (playerId gameId : String) (who : String) (h1 : who ≠ SYSTEM_ID)
    (h2 : who ≠ SYSTEM_ERROR_ID) :
    (handleError env e input playerId gameId).countP (senderIs who) = 0 :=
  countP_eq_zero_of _ _ (fun ev hev => by
    rcases (mem_handleError env e input playerId gameId ev hev).2 with h | h | h <;>
      simp [senderIs, h]
    · exact fun hc => h1 hc.symm
    · exact fun hc => h2 hc.symm)

/-- The recovery resubmission: a PASS dispatch that cannot itself raise the
word-not-in-dictionary failure completes with success, performs no recovery
round of its own (no delay), and invokes the engine on the synthetic PASS
exactly once. -/
theorem pass_dispatch (env : Env) (gameId playerId : String) (m : Nat)
    (hvp : env.isIdVirtualPlayer playerId = false)
    (hpass : ∀ e, env.playAction gameId playerId passActionData = Except.error e →
      isWordNotInDictionaryError e = false) :
    (handlePlayAction env (m + 1) gameId playerId passActionData).2 = Except.ok () ∧
    (handlePlayAction env (m + 1) gameId playerId passActionData).1.countP
      isDelayEvent = 0 ∧
    (handlePlayAction env (m + 1) gameId playerId passActionData).1.countP
      (isPassResubmission gameId playerId) = 1 := by
  have ht : passActionData.type ≠ none := by simp [passActionData]
  have hp : passActionData.payload ≠ none := by simp [passActionData]
  have hin : passActionData.input = some "" := rfl
  have hecho : echoEvents gameId playerId "" = [] := rfl
  cases hpa : env.playAction gameId playerId passActionData with
  | error e =>
    have hw := hpass e hpa
    have hatt := attemptPlay_of_error env gameId playerId passActionData "" e hin hpa
    rw [hecho] at hatt
    rw [handlePlayAction_of_error_human_not_word env m gameId playerId passActionData
      _ e ht hp hatt hvp hw]
    rw [handleError_not_word env e _ _ _ hw]
    refine ⟨rfl, ?_, ?_⟩ <;>
      simp [isDelayEvent, isPassResubmission, genericErrorMessage]
  | ok uf =>
    obtain ⟨u, f⟩ := uf
    have hatt := attemptPlay_of_ok env gameId playerId passActionData "" u f hin hpa
    rw [hecho] at hatt
    rw [handlePlayAction_of_ok env m gameId playerId passActionData _ ht hp hatt]
    refine ⟨rfl, ?_, ?_⟩ <;>
      cases u <;> cases f <;>
        simp [List.countP_append, isDelayEvent, isPassResubmission,
          gameUpdate_countP_delay, gameUpdate_countP_pass,
          handleFeedback_countP_delay, handleFeedback_countP_pass]

/-- Whatever the engine answers, a structurally valid action with a present
raw input produces a trace that starts with the echo (when non-empty)
followed immediately by the engine invocation. -/
theorem trace_decomp (env : Env) (fuel : Nat) (gameId playerId : String)
    (data : ActionData) (s : String) (ht : data.type ≠ none)
    (hp : data.payload ≠ none) (hin : data.input = some s) :
    ∃ tail, (handlePlayAction env (fuel + 1) gameId playerId data).1 =
      echoEvents gameId playerId s ++ Event.engineCall gameId playerId data :: tail := by
  cases hpa : env.playAction gameId playerId data with
  | ok uf =>
    obtain ⟨u, f⟩ := uf
    have hatt := attemptPlay_of_ok env gameId playerId data s u f hin hpa
    rw [handlePlayAction_of_ok env fuel gameId playerId data _ ht hp hatt]
    exact ⟨u.elim [] (gameUpdate env gameId) ++
      f.elim [] (handleFeedback env gameId playerId), by simp⟩
  | error e =>
    have hatt := attemptPlay_of_error env gameId playerId data s e hin hpa
    by_cases hv : env.isIdVirtualPlayer playerId = true
    · rw [handlePlayAction_of_error_virtual env fuel gameId playerId data _ e
        ht hp hatt hv]
      exact ⟨[], by simp⟩
    · have hv2 : env.isIdVirtualPlayer playerId = false := by simpa using hv
      by_cases hw : isWordNotInDictionaryError e = true
      · by_cases hover : env.isGameOver gameId playerId = true
        · rw [handlePlayAction_of_error_human_word_over env fuel gameId playerId
            data _ e ht hp hatt hv2 hw hover]
          exact ⟨handleError env e data.input playerId gameId, by simp⟩
        · rw [handlePlayAction_of_error_human_word_live env fuel gameId playerId
            data _ e ht hp hatt hv2 hw (by simpa using hover)]
          exact ⟨handleError env e data.input playerId gameId ++
            (handlePlayAction env fuel gameId playerId passActionData).1, by simp⟩
      · rw [handlePlayAction_of_error_human_not_word env fuel gameId playerId
          data _ e ht hp hatt hv2 (by simpa using hw)]
        exact ⟨handleError env e data.input playerId gameId, by simp⟩

/-- A dispatch whose action carries no non-empty raw input never emits a chat
event attributed to the submitting player: all chat events of the controller
other than the echo carry one of the two reserved system identities. -/
theorem no_player_sender (env : Env) (playerId : String)
    (hs1 : playerId ≠ SYSTEM_ID) (hs2 : playerId ≠ SYSTEM_ERROR_ID) :
    ∀ fuel gameId data, (∀ s, data.input = some s → s.length = 0) →
      (handlePlayAction env fuel gameId playerId data).1.countP
        (senderIs playerId) = 0 := by
  intro fuel
  induction fuel with
  | zero => intro g d _; rfl
  | succ m ih =>
    intro g d hinz
    by_cases ht : d.type = none
    · rw [handlePlayAction_of_type_none env m g playerId d ht]; rfl
    · by_cases hp : d.payload = none
      · rw [handlePlayAction_of_payload_none env m g playerId d ht hp]; rfl
      · have herr : ∀ e : Err,
            (handleError env e d.input playerId g).countP (senderIs playerId) = 0 :=
          fun e => handleError_countP_sender env e d.input playerId g playerId hs1 hs2
        rcases hi : d.input with _ | s
        · have hatt := attemptPlay_of_input_none env g playerId d hi
          by_cases hv : env.isIdVirtualPlayer playerId = true
          · rw [handlePlayAction_of_error_virtual env m g playerId d [] typeErr
              ht hp hatt hv]
            rfl
          · have hw : isWordNotInDictionaryError typeErr = false := by decide
            rw [handlePlayAction_of_error_human_not_word env m g playerId d []
              typeErr ht hp hatt (by simpa using hv) hw]
            simpa using herr typeErr
        · have hs0 : s.length = 0 := hinz s hi
          have hecho : echoEvents g playerId s = [] := by
            simp [echoEvents, hs0]
          have hcall : senderIs playerId (Event.engineCall g playerId d) = false := rfl
          cases hpa : env.playAction g playerId d with
          | ok uf =>
            obtain ⟨u, f⟩ := uf
            have hatt := attemptPlay_of_ok env g playerId d s u f hi hpa
            rw [hecho] at hatt
            rw [handlePlayAction_of_ok env m g playerId d _ ht hp hatt]
            cases u <;> cases f <;>
              simp [List.countP_append, hcall,
                gameUpdate_countP_sender,
                handleFeedback_countP_sender env g playerId _ playerId hs1]
          | error e =>
            have hatt := attemptPlay_of_error env g playerId d s e hi hpa
            rw [hecho] at hatt
            by_cases hv : env.isIdVirtualPlayer playerId = true
            · rw [handlePlayAction_of_error_virtual env m g playerId d _ e
                ht hp hatt hv]
              simp [hcall]
            · have hv2 : env.isIdVirtualPlayer playerId = false := by simpa using hv
              by_cases hw : isWordNotInDictionaryError e = true
              · by_cases hover : env.isGameOver g playerId = true
                · rw [handlePlayAction_of_error_human_word_over env m g playerId d
                    _ e ht hp hatt hv2 hw hover]
                  simp [List.countP_append, hcall, herr e]
                · rw [handlePlayAction_of_error_human_word_live env m g playerId d
                    _ e ht hp hatt hv2 hw (by simpa using hover)]
                  have hrec := ih g passActionData
                    (by intro s2 hs2e; cases hs2e; rfl)
                  simp [List.countP_append, hcall, herr e, hrec]
              · rw [handlePlayAction_of_error_human_not_word env m g playerId d
                  _ e ht hp hatt hv2 (by simpa using hw)]
                simp [List.countP_append, hcall, herr e]

/-- Claim C4: for every incoming action whose type field or payload field is
absent, dispatch fails with a validation error classified as 400 Bad Request
and emits no events at all — in particular the game engine is never invoked,
there is no chat echo, and there are no notifications. -/
theorem claim4_validation (env : Env) (fuel : Nat) (gameId playerId : String)
    (data : ActionData) (h : data.type = none ∨ data.payload = none) :
    (handlePlayAction env (fuel + 1) gameId playerId data).1 = [] ∧
    ∃ msg, handlePlayAction env (fuel + 1) gameId playerId data =
      ([], Except.error { message := msg, status := some 400 }) := by
  by_cases ht : data.type = none
  · rw [handlePlayAction_of_type_none env fuel gameId playerId data ht]
    exact ⟨rfl, "type is required", rfl⟩
  · rcases h with h | h
    · exact absurd h ht
    · rw [handlePlayAction_of_payload_none env fuel gameId playerId data ht h]
      exact ⟨rfl, "payload is required", rfl⟩

theorem claim4_validation_witness :
    (handlePlayAction envA 1 "g1" "p1"
      { type := none, payload := some ActionPayload.empty, input := some "abc" }).1
        = [] ∧
    ∃ msg, handlePlayAction envA 1 "g1" "p1"
      { type := none, payload := some ActionPayload.empty, input := some "abc" } =
        ([], Except.error { message := msg, status := some 400 }) :=
  claim4_validation envA 0 "g1" "p1"
    { type := none, payload := some ActionPayload.empty, input := some "abc" }
    (Or.inl rfl)

/-- Claim C3: when the engine fails for a playerId that classifies as
automated, the whole trace consists of the echo and the engine invocation
only — no chat notification is emitted as part of failure handling, no
recovery (no delay, reset, opponent notification, or PASS resubmission) —
and a failure carrying the same message and status as the original is
re-thrown to the caller. -/
theorem claim3_virtual_rethrow (env : Env) (fuel : Nat) (gameId playerId : String)
    (data : ActionData) (t : ActionType) (pl : ActionPayload) (s : String) (e : Err)
    (ht : data.type = some t) (hp : data.payload = some pl)
    (hin : data.input = some s)
    (hvp : env.isIdVirtualPlayer playerId = true)
    (hpa : env.playAction gameId playerId data = Except.error e)
    (hns1 : playerId ≠ SYSTEM_ID) (hns2 : playerId ≠ SYSTEM_ERROR_ID) :
    handlePlayAction env (fuel + 1) gameId playerId data =
      (echoEvents gameId playerId s ++ [Event.engineCall gameId playerId data],
       Except.error { message := e.message, status := e.status }) ∧
    (handlePlayAction env (fuel + 1) gameId playerId data).1.countP
      isDelayEvent = 0 ∧
    (handlePlayAction env (fuel + 1) gameId playerId data).1.countP
      (senderIs SYSTEM_ID) = 0 ∧
    (handlePlayAction env (fuel + 1) gameId playerId data).1.countP
      (senderIs SYSTEM_ERROR_ID) = 0 := by
  have hatt := attemptPlay_of_error env gameId playerId data s e hin hpa
  have heq := handlePlayAction_of_error_virtual env fuel gameId playerId data _ e
    (by simp [ht]) (by simp [hp]) hatt hvp
  refine ⟨heq, ?_, ?_, ?_⟩ <;> rw [heq] <;>
    unfold echoEvents <;> split <;>
      simp [isDelayEvent, senderIs, eventSender] <;>
        [exact fun hc => hns1 hc; exact fun hc => hns2 hc]

theorem claim3_virtual_rethrow_witness :
    handlePlayAction envVirt 1 "g1" "v1" dataA =
      (echoEvents "g1" "v1" "abc" ++ [Event.engineCall "g1" "v1" dataA],
       Except.error { message := genErr.message, status := genErr.status }) ∧
    (handlePlayAction envVirt 1 "g1" "v1" dataA).1.countP isDelayEvent = 0 ∧
    (handlePlayAction envVirt 1 "g1" "v1" dataA).1.countP (senderIs SYSTEM_ID) = 0 ∧
    (handlePlayAction envVirt 1 "g1" "v1" dataA).1.countP
      (senderIs SYSTEM_ERROR_ID) = 0 :=
  claim3_virtual_rethrow envVirt 0 "g1" "v1" dataA ActionType.PLAY
    ActionPayload.empty "abc" genErr rfl rfl rfl rfl rfl (by decide) (by decide)

/-- Claim C10: an action whose type and payload are present but whose input
field is entirely absent does not fail with a 400 validation error; the
runtime failure raised inside the guarded block by reading the absent field
is routed through the engine-failure handling path — re-thrown (with its
status, which is not 400) when the playerId classifies as automated, and
otherwise absorbed into a single system-error chat notification to the
acting player with the dispatch reporting success. -/
theorem claim10_missing_input (env : Env) (fuel : Nat) (gameId playerId : String)
    (data : ActionData) (t : ActionType) (pl : ActionPayload)
    (ht : data.type = some t) (hp : data.payload = some pl)
    (hin : data.input = none) :
    (env.isIdVirtualPlayer playerId = true →
      handlePlayAction env (fuel + 1) gameId playerId data =
        ([], Except.error { message := typeErr.message, status := typeErr.status })) ∧
    (env.isIdVirtualPlayer playerId = false →
      handlePlayAction env (fuel + 1) gameId playerId data =
        ([genericErrorMessage typeErr none playerId gameId], Except.ok ())) ∧
    typeErr.status ≠ some 400 := by
  have hatt := attemptPlay_of_input_none env gameId playerId data hin
  have hw : isWordNotInDictionaryError typeErr = false := by decide
  refine ⟨?_, ?_, by decide⟩
  · intro hv
    exact handlePlayAction_of_error_virtual env fuel gameId playerId data [] typeErr
      (by simp [ht]) (by simp [hp]) hatt hv
  · intro hv
    rw [handlePlayAction_of_error_human_not_word env fuel gameId playerId data []
      typeErr (by simp [ht]) (by simp [hp]) hatt hv hw, hin,
      handleError_not_word env typeErr none playerId gameId hw]
    rfl

theorem claim10_missing_input_witness :
    (envVirt.isIdVirtualPlayer "v1" = true →
      handlePlayAction envVirt 1 "g1" "v1"
        { type := some ActionType.PLAY, payload := some ActionPayload.empty,
          input := none } =
        ([], Except.error { message := typeErr.message, status := typeErr.status })) ∧
    (envA.isIdVirtualPlayer "p1" = false →
      handlePlayAction envA 1 "g1" "p1"
        { type := some ActionType.PLAY, payload := some ActionPayload.empty,
          input := none } =
        ([genericErrorMessage typeErr none "p1" "g1"], Except.ok ())) ∧
    typeErr.status ≠ some 400 :=
  ⟨(claim10_missing_input envVirt 0 "g1" "v1"
      { type := some ActionType.PLAY, payload := some ActionPayload.empty,
        input := none } ActionType.PLAY ActionPayload.empty rfl rfl rfl).1,
   (claim10_missing_input envA 0 "g1" "p1"
      { type := some ActionType.PLAY, payload := some ActionPayload.empty,
        input := none } ActionType.PLAY ActionPayload.empty rfl rfl rfl).2.1,
   by decide⟩

/-- Claim C5: a word-not-in-dictionary failure of a human action whose
post-delay game-over check reports true produces only the echo, the engine
invocation and the delay: no objectives-reset update is broadcast, no
notification reaches the opponent (no neutral-system message at all), and no
synthetic PASS is resubmitted. -/
theorem claim5_game_over_frame (env : Env) (fuel : Nat) (gameId playerId : String)
    (data : ActionData) (t : ActionType) (pl : ActionPayload) (s : String) (e : Err)
    (ht : data.type = some t) (hp : data.payload = some pl)
    (hin : data.input = some s)
    (hvp : env.isIdVirtualPlayer playerId = false)
    (hpa : env.playAction gameId playerId data = Except.error e)
    (hword : isWordNotInDictionaryError e = true)
    (hover : env.isGameOver gameId playerId = true)
    (hns1 : playerId ≠ SYSTEM_ID) :
    handlePlayAction env (fuel + 1) gameId playerId data =
      (echoEvents gameId playerId s ++ [Event.engineCall gameId playerId data] ++
        [Event.delayFor INVALID_WORD_TIMEOUT], Except.ok ()) ∧
    (handlePlayAction env (fuel + 1) gameId playerId data).1.countP
      isGameUpdateEvent = 0 ∧
    (handlePlayAction env (fuel + 1) gameId playerId data).1.countP
      (senderIs SYSTEM_ID) = 0 := by
  have hatt := attemptPlay_of_error env gameId playerId data s e hin hpa
  have heq := handlePlayAction_of_error_human_word_over env fuel gameId playerId
    data _ e (by simp [ht]) (by simp [hp]) hatt hvp hword hover
  rw [hin, handleError_word_over env e (some s) playerId gameId hword hover] at heq
  refine ⟨heq, ?_, ?_⟩ <;> rw [heq] <;>
    unfold echoEvents <;> split <;>
      simp [isGameUpdateEvent, senderIs, eventSender]
  exact fun hc => hns1 hc

theorem claim5_game_over_frame_witness :
    handlePlayAction envOver 1 "g1" "p1" dataA =
      (echoEvents "g1" "p1" "abc" ++ [Event.engineCall "g1" "p1" dataA] ++
        [Event.delayFor INVALID_WORD_TIMEOUT], Except.ok ()) ∧
    (handlePlayAction envOver 1 "g1" "p1" dataA).1.countP isGameUpdateEvent = 0 ∧
    (handlePlayAction envOver 1 "g1" "p1" dataA).1.countP (senderIs SYSTEM_ID) = 0 :=
  claim5_game_over_frame envOver 0 "g1" "p1" dataA ActionType.PLAY
    ActionPayload.empty "abc" wordErr rfl rfl rfl rfl rfl (by decide) rfl (by decide)

/-- Claim C9: in the same game-over scenario the acting player receives no
failure notification at all — the early return on the game-over check also
skips the generic system-error chat message, so the trace carries no message
from the system-error identity — and the dispatch still reports success. -/
theorem claim9_no_error_message_on_game_over (env : Env) (fuel : Nat)
    (gameId playerId : String) (data : ActionData) (t : ActionType)
    (pl : ActionPayload) (s : String) (e : Err)
    (ht : data.type = some t) (hp : data.payload = some pl)
    (hin : data.input = some s)
    (hvp : env.isIdVirtualPlayer playerId = false)
    (hpa : env.playAction gameId playerId data = Except.error e)
    (hword : isWordNotInDictionaryError e = true)
    (hover : env.isGameOver gameId playerId = true)
    (hns2 : playerId ≠ SYSTEM_ERROR_ID) :
    (handlePlayAction env (fuel + 1) gameId playerId data).1.countP
      (senderIs SYSTEM_ERROR_ID) = 0 ∧
    (handlePlayAction env (fuel + 1) gameId playerId data).2 = Except.ok () := by
  have hatt := attemptPlay_of_error env gameId playerId data s e hin hpa
  have heq := handlePlayAction_of_error_human_word_over env fuel gameId playerId
    data _ e (by simp [ht]) (by simp [hp]) hatt hvp hword hover
  rw [hin, handleError_word_over env e (some s) playerId gameId hword hover] at heq
  refine ⟨?_, by rw [heq]⟩
  rw [heq]
  unfold echoEvents
  split <;> simp [senderIs, eventSender]
  exact fun hc => hns2 hc

theorem claim9_no_error_message_on_game_over_witness :
    (handlePlayAction envOver 1 "g1" "p1" dataA).1.countP
      (senderIs SYSTEM_ERROR_ID) = 0 ∧
    (handlePlayAction envOver 1 "g1" "p1" dataA).2 = Except.ok () :=
  claim9_no_error_message_on_game_over envOver 0 "g1" "p1" dataA ActionType.PLAY
    ActionPayload.empty "abc" wordErr rfl rfl rfl rfl rfl (by decide) rfl (by decide)

/-- Claim C6: if the session became invalid while the recovery delay was
pending, the post-delay game-over check reports true, so the recovery stops
silently — the dispatch completes with success instead of raising a new
failure, and nothing is emitted after the delay. -/
theorem claim6_invalid_session (env : Env) (fuel : Nat) (gameId playerId : String)
    (data : ActionData) (t : ActionType) (pl : ActionPayload) (s : String) (e : Err)
    (ht : data.type = some t) (hp : data.payload = some pl)
    (hin : data.input = some s)
    (hvp : env.isIdVirtualPlayer playerId = false)
    (hpa : env.playAction gameId playerId data = Except.error e)
    (hword : isWordNotInDictionaryError e = true)
    (hsv : env.sessionValid gameId = false) :
    handlePlayAction env (fuel + 1) gameId playerId data =
      (echoEvents gameId playerId s ++ [Event.engineCall gameId playerId data] ++
        [Event.delayFor INVALID_WORD_TIMEOUT], Except.ok ()) := by
  have hover : env.isGameOver gameId playerId = true := by
    simp [Env.isGameOver, hsv]
  have hatt := attemptPlay_of_error env gameId playerId data s e hin hpa
  have heq := handlePlayAction_of_error_human_word_over env fuel gameId playerId
    data _ e (by simp [ht]) (by simp [hp]) hatt hvp hword hover
  rw [hin, handleError_word_over env e (some s) playerId gameId hword hover] at heq
  exact heq

theorem claim6_invalid_session_witness :
    handlePlayAction envDeleted 1 "g1" "p1" dataA =
      (echoEvents "g1" "p1" "abc" ++ [Event.engineCall "g1" "p1" dataA] ++
        [Event.delayFor INVALID_WORD_TIMEOUT], Except.ok ()) :=
  claim6_invalid_session envDeleted 0 "g1" "p1" dataA ActionType.PLAY
    ActionPayload.empty "abc" wordErr rfl rfl rfl rfl rfl (by decide) rfl

/-- Claim C8: a feedback bundle with absent local and opponent messages and
an end-game sequence of two items A wins and B loses is routed as exactly one
broadcast to the whole session, with the messages joined by the line-break
separator and the neutral system sender, and with no direct message to any
individual participant. -/
theorem claim8_end_game_broadcast (env : Env) (gameId playerId : String)
    (f : FeedbackMessages) (c1 c2 : Option Bool)
    (hl : f.localPlayerFeedback.message = none)
    (ho : f.opponentFeedback.message = none)
    (he : f.endGameFeedback =
      [{ message := some "A wins", isClickable := c1 },
       { message := some "B loses", isClickable := c2 }]) :
    handleFeedback env gameId playerId f =
      [Event.emitToRoom gameId
        { content := "A wins<br>B loses", senderId := SYSTEM_ID,
          gameId := gameId }] ∧
    (handleFeedback env gameId playerId f).countP isDirectMessage = 0 := by
  have heq : handleFeedback env gameId playerId f =
      [Event.emitToRoom gameId
        { content := "A wins<br>B loses", senderId := SYSTEM_ID,
          gameId := gameId }] := by
    simp [handleFeedback, hl, ho, he]
    rfl
  exact ⟨heq, by rw [heq]; rfl⟩

theorem claim8_end_game_broadcast_witness :
    handleFeedback envA "g1" "p1"
      { localPlayerFeedback := { message := none },
        opponentFeedback := { message := none },
        endGameFeedback :=
          [{ message := some "A wins" }, { message := some "B loses" }] } =
      [Event.emitToRoom "g1"
        { content := "A wins<br>B loses", senderId := SYSTEM_ID,
          gameId := "g1" }] ∧
    (handleFeedback envA "g1" "p1"
      { localPlayerFeedback := { message := none },
        opponentFeedback := { message := none },
        endGameFeedback :=
          [{ message := some "A wins" }, { message := some "B loses" }] }).countP
      isDirectMessage = 0 :=
  claim8_end_game_broadcast envA "g1" "p1"
    { localPlayerFeedback := { message := none },
      opponentFeedback := { message := none },
      endGameFeedback :=
        [{ message := some "A wins" }, { message := some "B loses" }] }
    none none rfl rfl rfl

/-- Claim C2 counterexample: in a concrete human invalid-word scenario
(game not over) the acting player receives exactly one chat message carrying
the system-error sender, and exactly one message whose content is the fixed
prefix naming the raw input plus the failure message — not the two separate
deliveries the claim asserts. -/
theorem claim2_counterexample :
    (handlePlayAction envA 2 "g1" "p1" dataA).1.countP
      (senderIs SYSTEM_ERROR_ID) = 1 ∧
    (handlePlayAction envA 2 "g1" "p1" dataA).1.countP
      (fun ev => decide (ev = genericErrorMessage wordErr (some "abc") "p1" "g1")) = 1 ∧
    ¬ (handlePlayAction envA 2 "g1" "p1" dataA).1.countP
      (senderIs SYSTEM_ERROR_ID) = 2 := by
  refine ⟨?_, ?_, ?_⟩ <;> decide

/-- Claim C2 amended: a word-not-recognized failure of a human action whose
game is not over produces, in its failure handling, exactly one chat message
to the acting player with the system-error sender: the invalid-word-specific
notification and the generic notification are one and the same send, whose
content is the fixed prefix naming the raw input followed by the failure
message. -/
theorem claim2_single_notification (env : Env) (e : Err) (input : Option String)
    (playerId gameId : String)
    (hword : isWordNotInDictionaryError e = true)
    (hover : env.isGameOver gameId playerId = false) :
    (handleError env e input playerId gameId).countP
      (senderIs SYSTEM_ERROR_ID) = 1 ∧
    (handleError env e input playerId gameId).countP
      (fun ev => decide (ev = genericErrorMessage e input playerId gameId)) = 1 := by
  rw [handleError_word_live env e input playerId gameId hword hover]
  have hupd0 : (gameUpdate env gameId (env.handleResetObjectives gameId playerId)).countP
      (fun ev => decide (ev = genericErrorMessage e input playerId gameId)) = 0 :=
    countP_eq_zero_of _ _ (fun ev hev => by
      have hn := (mem_gameUpdate env gameId _ ev hev).2.2
      simp only [decide_eq_false_iff_not]
      intro hc
      rw [hc] at hn
      simp [genericErrorMessage, eventSender] at hn)
  have hupd1 : (gameUpdate env gameId (env.handleResetObjectives gameId playerId)).countP
      (senderIs SYSTEM_ERROR_ID) = 0 :=
    gameUpdate_countP_sender env gameId _ SYSTEM_ERROR_ID
  have hde1 : senderIs SYSTEM_ERROR_ID (Event.delayFor INVALID_WORD_TIMEOUT) = false :=
    rfl
  have hoppS : senderIs SYSTEM_ERROR_ID
      (opponentInvalidWordMessage env playerId gameId) = false := rfl
  have hgenS : senderIs SYSTEM_ERROR_ID
      (genericErrorMessage e input playerId gameId) = true := rfl
  have hde2 : (decide (Event.delayFor INVALID_WORD_TIMEOUT =
      genericErrorMessage e input playerId gameId)) = false := by
    simp [genericErrorMessage]
  have hoppG : (decide (opponentInvalidWordMessage env playerId gameId =
      genericErrorMessage e input playerId gameId)) = false := by
    simp [opponentInvalidWordMessage, genericErrorMessage, SYSTEM_ID, SYSTEM_ERROR_ID]
  have hgenG : (decide (genericErrorMessage e input playerId gameId =
      genericErrorMessage e input playerId gameId)) = true := by simp
  constructor
  · simp only [List.countP_cons, List.countP_append, List.countP_nil,
      hupd1, hde1, hoppS, hgenS]
    simp
  · simp only [List.countP_cons, List.countP_append, List.countP_nil,
      hupd0, hde2, hoppG, hgenG]
    simp

theorem claim2_single_notification_witness :
    (handleError envA wordErr (some "abc") "p1" "g1").countP
      (senderIs SYSTEM_ERROR_ID) = 1 ∧
    (handleError envA wordErr (some "abc") "p1" "g1").countP
      (fun ev => decide (ev = genericErrorMessage wordErr (some "abc") "p1" "g1")) = 1 :=
  claim2_single_notification envA wordErr (some "abc") "p1" "g1" (by decide) rfl

/-- Claim C7: a structurally valid action with a present raw input produces,
when the raw input is non-empty, a trace that begins with the chat echo of
that input attributed to the submitting player, strictly before the engine
invocation and hence before any update broadcast, feedback delivery or error
notification; and when the raw input is empty, no chat event attributed to
the submitting player is emitted anywhere in the dispatch. -/
theorem claim7_echo_order (env : Env) (fuel : Nat) (gameId playerId : String)
    (data : ActionData) (t : ActionType) (pl : ActionPayload) (s : String)
    (ht : data.type = some t) (hp : data.payload = some pl)
    (hin : data.input = some s) :
    (0 < s.length →
      ∃ rest, (handlePlayAction env (fuel + 1) gameId playerId data).1 =
        Event.emitToSocket playerId
            { content := s, senderId := playerId, gameId := gameId } ::
          Event.engineCall gameId playerId data :: rest) ∧
    (s.length = 0 → playerId ≠ SYSTEM_ID → playerId ≠ SYSTEM_ERROR_ID →
      (handlePlayAction env (fuel + 1) gameId playerId data).1.countP
        (senderIs playerId) = 0) := by
  constructor
  · intro hlen
    obtain ⟨tail, htail⟩ := trace_decomp env fuel gameId playerId data s
      (by simp [ht]) (by simp [hp]) hin
    refine ⟨tail, ?_⟩
    rw [htail]
    simp [echoEvents, hlen]
  · intro hlen hns1 hns2
    exact no_player_sender env playerId hns1 hns2 (fuel + 1) gameId data
      (fun s2 hs2 => by
        rw [hin] at hs2
        injection hs2 with h2
        rw [← h2]
        exact hlen)

theorem claim7_echo_order_witness :
    (∃ rest, (handlePlayAction envA 2 "g1" "p1" dataA).1 =
      Event.emitToSocket "p1"
          { content := "abc", senderId := "p1", gameId := "g1" } ::
        Event.engineCall "g1" "p1" dataA :: rest) ∧
    (handlePlayAction envA 2 "g1" "p1" dataB).1.countP (senderIs "p1") = 0 :=
  ⟨(claim7_echo_order envA 1 "g1" "p1" dataA ActionType.PLAY ActionPayload.empty
      "abc" rfl rfl rfl).1 (by decide),
   (claim7_echo_order envA 1 "g1" "p1" dataB ActionType.PLAY ActionPayload.empty
      "" rfl rfl rfl).2 rfl (by decide) (by decide)⟩

/-- Claim C1: a word-not-recognized failure of a human action whose game is
not over unwinds as: echo, engine call, then the recovery — the delay,
exactly one objectives-reset update broadcast, exactly one opponent
notification with the fixed text, the single generic notification — followed
by exactly one resubmitted synthetic PASS dispatch; and under the hypothesis
that a PASS never itself raises the word-not-recognized failure, the whole
dispatch succeeds with exactly one delay in the trace, i.e. no second round
of recovery occurs. -/
theorem claim1_recovery (env : Env) (n : Nat) (gameId playerId : String)
    (data : ActionData) (t : ActionType) (pl : ActionPayload) (s : String) (e : Err)
    (ht : data.type = some t) (hp : data.payload = some pl)
    (hin : data.input = some s)
    (hvp : env.isIdVirtualPlayer playerId = false)
    (hpa : env.playAction gameId playerId data = Except.error e)
    (hword : isWordNotInDictionaryError e = true)
    (hover : env.isGameOver gameId playerId = false)
    (hpass : ∀ e2, env.playAction gameId playerId passActionData = Except.error e2 →
      isWordNotInDictionaryError e2 = false) :
    handlePlayAction env (n + 2) gameId playerId data =
      (echoEvents gameId playerId s ++ [Event.engineCall gameId playerId data] ++
        (Event.delayFor INVALID_WORD_TIMEOUT ::
          (gameUpdate env gameId (env.handleResetObjectives gameId playerId) ++
           [opponentInvalidWordMessage env playerId gameId] ++
           [genericErrorMessage e (some s) playerId gameId])) ++
        (handlePlayAction env (n + 1) gameId playerId passActionData).1,
       Except.ok ()) ∧
    (handleError env e (some s) playerId gameId).countP
      (fun ev => decide (ev = Event.emitGameUpdate gameId
        (env.handleResetObjectives gameId playerId))) = 1 ∧
    (handleError env e (some s) playerId gameId).countP
      (fun ev => decide (ev = opponentInvalidWordMessage env playerId gameId)) = 1 ∧
    (handlePlayAction env (n + 2) gameId playerId data).1.countP
      (isPassResubmission gameId playerId) = 1 ∧
    (handlePlayAction env (n + 2) gameId playerId data).1.countP isDelayEvent = 1 := by
  obtain ⟨hres, hdel, hcnt⟩ := pass_dispatch env gameId playerId n hvp hpass
  have hatt := attemptPlay_of_error env gameId playerId data s e hin hpa
  have herr := handleError_word_live env e (some s) playerId gameId hword hover
  have heq := handlePlayAction_of_error_human_word_live env (n + 1) gameId playerId
    data _ e (by simp [ht]) (by simp [hp]) hatt hvp hword hover
  rw [hin, herr, hres] at heq
  have heq2 : handlePlayAction env (n + 2) gameId playerId data =
      (echoEvents gameId playerId s ++ [Event.engineCall gameId playerId data] ++
        (Event.delayFor INVALID_WORD_TIMEOUT ::
          (gameUpdate env gameId (env.handleResetObjectives gameId playerId) ++
           [opponentInvalidWordMessage env playerId gameId] ++
           [genericErrorMessage e (some s) playerId gameId])) ++
        (handlePlayAction env (n + 1) gameId playerId passActionData).1,
       Except.ok ()) := heq
  have hne : data ≠ passActionData := by
    intro hd
    rw [hd] at hpa
    have hcontra := hpass e hpa
    rw [hword] at hcontra
    exact absurd hcontra (by decide)
  have hresetList : handleError env e (some s) playerId gameId =
      Event.delayFor INVALID_WORD_TIMEOUT ::
        (gameUpdate env gameId (env.handleResetObjectives gameId playerId) ++
         [opponentInvalidWordMessage env playerId gameId] ++
         [genericErrorMessage e (some s) playerId gameId]) := herr
  refine ⟨heq2, ?_, ?_, ?_, ?_⟩
  · rw [hresetList]
    have hupd : (gameUpdate env gameId (env.handleResetObjectives gameId playerId)).countP
        (fun ev => decide (ev = Event.emitGameUpdate gameId
          (env.handleResetObjectives gameId playerId))) = 1 := by
      unfold gameUpdate
      rcases hR : (env.handleResetObjectives gameId playerId).round with _ | r
      · simp
      · split <;> simp
    have hde : (decide (Event.delayFor INVALID_WORD_TIMEOUT =
        Event.emitGameUpdate gameId (env.handleResetObjectives gameId playerId)))
        = false := by simp
    have hop : (decide (opponentInvalidWordMessage env playerId gameId =
        Event.emitGameUpdate gameId (env.handleResetObjectives gameId playerId)))
        = false := by simp [opponentInvalidWordMessage]
    have hge : (decide (genericErrorMessage e (some s) playerId gameId =
        Event.emitGameUpdate gameId (env.handleResetObjectives gameId playerId)))
        = false := by simp [genericErrorMessage]
    simp only [List.countP_cons, List.countP_append, List.countP_nil,
      hupd, hde, hop, hge]
    simp
  · rw [hresetList]
    have hupd : (gameUpdate env gameId (env.handleResetObjectives gameId playerId)).countP
        (fun ev => decide (ev = opponentInvalidWordMessage env playerId gameId)) = 0 :=
      countP_eq_zero_of _ _ (fun ev hev => by
        have hn := (mem_gameUpdate env gameId _ ev hev).2.2
        simp only [decide_eq_false_iff_not]
        intro hc
        rw [hc] at hn
        simp [opponentInvalidWordMessage, eventSender] at hn)
    have hde : (decide (Event.delayFor INVALID_WORD_TIMEOUT =
        opponentInvalidWordMessage env playerId gameId)) = false := by
      simp [opponentInvalidWordMessage]
    have hop : (decide (opponentInvalidWordMessage env playerId gameId =
        opponentInvalidWordMessage env playerId gameId)) = true := by simp
    have hge : (decide (genericErrorMessage e (some s) playerId gameId =
        opponentInvalidWordMessage env playerId gameId)) = false := by
      simp [genericErrorMessage, opponentInvalidWordMessage, SYSTEM_ID,
        SYSTEM_ERROR_ID]
    simp only [List.countP_cons, List.countP_append, List.countP_nil,
      hupd, hde, hop, hge]
    simp
  · have hcall : isPassResubmission gameId playerId
        (Event.engineCall gameId playerId data) = false := by
      simp [isPassResubmission, hne]
    rw [heq2, ← hresetList]
    simp only [List.countP_append]
    rw [handleError_countP_pass env e (some s) playerId gameId gameId playerId,
      hcnt]
    unfold echoEvents
    split <;> simp [hcall, isPassResubmission, hne]
  · have hErrDelay : (handleError env e (some s) playerId gameId).countP
        isDelayEvent = 1 := by
      rw [hresetList]
      have hop : isDelayEvent (opponentInvalidWordMessage env playerId gameId)
          = false := rfl
      have hge : isDelayEvent (genericErrorMessage e (some s) playerId gameId)
          = false := rfl
      simp only [List.countP_cons, List.countP_append, List.countP_nil,
        gameUpdate_countP_delay, hop, hge]
      simp [isDelayEvent]
    rw [heq2, ← hresetList]
    simp only [List.countP_append]
    rw [hErrDelay, hdel]
    unfold echoEvents
    split <;> simp [isDelayEvent]

theorem claim1_recovery_witness :
    handlePlayAction envA 2 "g1" "p1" dataA =
      (echoEvents "g1" "p1" "abc" ++ [Event.engineCall "g1" "p1" dataA] ++
        (Event.delayFor INVALID_WORD_TIMEOUT ::
          (gameUpdate envA "g1" (envA.handleResetObjectives "g1" "p1") ++
           [opponentInvalidWordMessage envA "p1" "g1"] ++
           [genericErrorMessage wordErr (some "abc") "p1" "g1"])) ++
        (handlePlayAction envA 1 "g1" "p1" passActionData).1,
       Except.ok ()) ∧
    (handleError envA wordErr (some "abc") "p1" "g1").countP
      (fun ev => decide (ev = Event.emitGameUpdate "g1"
        (envA.handleResetObjectives "g1" "p1"))) = 1 ∧
    (handleError envA wordErr (some "abc") "p1" "g1").countP
      (fun ev => decide (ev = opponentInvalidWordMessage envA "p1" "g1")) = 1 ∧
    (handlePlayAction envA 2 "g1" "p1" dataA).1.countP
      (isPassResubmission "g1" "p1") = 1 ∧
    (handlePlayAction envA 2 "g1" "p1" dataA).1.countP isDelayEvent = 1 :=
  claim1_recovery envA 0 "g1" "p1" dataA ActionType.PLAY ActionPayload.empty
    "abc" wordErr rfl rfl rfl rfl rfl (by decide) rfl
    (fun _ h2 => Except.noConfusion h2)

end GamePlay
